import Mathlib

/-!
Verification of the QtTwitch gateway and IRC message parser
(`QtTwitch/gateway.py`, `QtTwitch/parser.py`).

Python strings are modelled as `List Char` (`PyStr`); the Python string
methods used by the source (`lower`, `startswith`, `endswith`, `split`,
slicing) are given explicit executable models below.  Python `datetime`
values are modelled as integer seconds since the epoch, and
`timedelta.days` as flooring division by 86400, matching CPython's
normalisation.  A raised Python exception is modelled by an explicit
error value (`PyExc`).
-/

namespace QtTwitch

/-- Exceptions the modelled code can raise. -/
inductive PyExc where
  | valueError
  | typeError
  | attributeError
  | connectionError
deriving DecidableEq, Repr

/-- Python `str` as a list of characters. -/
abbrev PyStr := List Char

instance instDecEqExcept {ε α : Type} [DecidableEq ε] [DecidableEq α] :
    DecidableEq (Except ε α)
  | .ok a, .ok b =>
    if h : a = b then .isTrue (by rw [h]) else .isFalse (fun hh => h (Except.ok.inj hh))
  | .ok _, .error _ => .isFalse (fun hh => Except.noConfusion hh)
  | .error _, .ok _ => .isFalse (fun hh => Except.noConfusion hh)
  | .error e, .error f =>
    if h : e = f then .isTrue (by rw [h]) else .isFalse (fun hh => h (Except.error.inj hh))

/-- Model of CPython `str.lower` on one character, for the ASCII range the
protocol uses: code points 65–90 (`A`–`Z`) are shifted by 32, everything
else is unchanged. -/
def pyLowerChar (c : Char) : Char :=
  if 65 ≤ c.toNat ∧ c.toNat ≤ 90 then Char.ofNat (c.toNat + 32) else c

/-- Model of `str.lower`. -/
def pyLower (s : PyStr) : PyStr := s.map pyLowerChar

/-- Model of `str.startswith`. -/
def pyStartsWith (s p : PyStr) : Bool := p.isPrefixOf s

/-- Model of `str.endswith`. -/
def pyEndsWith (s p : PyStr) : Bool := p.isSuffixOf s

/-- Model of `str.split(sep)` (no maxsplit): `n` separators yield `n + 1`
segments, so the empty string yields `[""]`, as in Python. -/
def pySplitChar (sep : Char) : PyStr → List PyStr
  | [] => [[]]
  | c :: tl =>
    let r := pySplitChar sep tl
    if c = sep then [] :: r
    else
      match r with
      | [] => [[c]]
      | h :: t => (c :: h) :: t

/-- Model of `str.split(sep, 1)` restricted to what the callers use:
`some (before, after)` when the separator occurs, `none` when it does not
(in which case Python returns a one-element list and an unpacking
assignment `a, b = ...` raises `ValueError`). -/
def pySplitOnce (sep : Char) : PyStr → Option (PyStr × PyStr)
  | [] => none
  | c :: tl =>
    if c = sep then some ([], tl)
    else (pySplitOnce sep tl).map (fun ab => (c :: ab.1, ab.2))

/-- Model of `str.isdigit` for the ASCII digits the protocol uses. -/
def pyIsdigit (s : PyStr) : Bool := !s.isEmpty && s.all Char.isDigit

/-- Model of `int(s)` on a digit string. -/
def pyStrToNat (s : PyStr) : Nat := s.foldl (fun n c => n * 10 + (c.toNat - 48)) 0

/-! ## The parser (`QtTwitch/parser.py`)

`Parser.PATTERN` is the regular expression

`(?:@(?P<tags>.*?) )?:(?:(?P<prefix>.*?) ?) (?P<command>\w+|\d+) (?P<params>.*)`

matched with `re.match` (anchored at the start of the line only).
`PATTERN_match` below implements exactly the backtracking behaviour of
this pattern: the optional tag block is tried greedily with a lazy `.*?`
body, the `:`-introduced originator segment is lazy with a greedy
optional space before the mandatory space, the command is a maximal
nonempty run of word characters followed by a space (the `\d+`
alternative can never match where `\w+` failed since digits are word
characters), and `params` is everything up to the next `\n` (`.` does not
match a newline, and the match need not reach the end of the string). -/

/-- The named groups of a successful `Parser.PATTERN` match, as returned
by `match.groupdict()`.  `tags` is `none` when the optional tag block did
not participate in the match. -/
structure MatchGroups where
  tags : Option PyStr
  pfx : PyStr
  command : PyStr
  params : PyStr
deriving DecidableEq, Repr

/-- A regex word character (`\w`) for the ASCII inputs the protocol uses. -/
def wordChar (c : Char) : Bool := c.isAlphanum || c == '_'

/-- Matches `(?P<command>\w+|\d+) (?P<params>.*)` at the start of `u`:
a maximal nonempty run of word characters, a space, then everything up to
(not including) the first `\n`. -/
def matchCmdParams (u : PyStr) : Option (PyStr × PyStr) :=
  let run := u.takeWhile wordChar
  if run.isEmpty then none
  else
    match u.drop run.length with
    | ' ' :: tl => some (run, tl.takeWhile (fun c => c ≠ '\n'))
    | _ => none

/-- Matches `(?:(?P<prefix>.*?) ?) (?P<command>\w+|\d+) (?P<params>.*)` at
the start of the string: the lazy originator segment is extended one
character at a time; at each stop the greedy optional space is tried
first (two literal spaces before the command) and then the bare mandatory
space.  The segment cannot absorb a `\n`. -/
def matchTail (acc : PyStr) : PyStr → Option (PyStr × PyStr × PyStr)
  | [] => none
  | c :: tl =>
    if c = '\n' then none
    else if c = ' ' then
      let optA :=
        match tl with
        | ' ' :: v => (matchCmdParams v).map (fun (cp : PyStr × PyStr) => (acc.reverse, cp.1, cp.2))
        | _ => none
      match optA with
      | some r => some r
      | none =>
        match (matchCmdParams tl).map (fun (cp : PyStr × PyStr) => (acc.reverse, cp.1, cp.2)) with
        | some r => some r
        | none => matchTail (c :: acc) tl
    else matchTail (c :: acc) tl

/-- Matches `:` followed by the tail of the pattern; the `:` is not
optional in `Parser.PATTERN`, so a line with no `:`-introduced segment
cannot match. -/
def matchNoTags (s : PyStr) : Option MatchGroups :=
  match s with
  | ':' :: u => (matchTail [] u).map (fun r => ⟨none, r.1, r.2.1, r.2.2⟩)
  | _ => none

/-- Matches the lazy body of the optional tag block `@(?P<tags>.*?) `:
at each space the rest of the pattern is tried on the remainder, and on
failure the tag text is extended through that space. -/
def matchTags (acc : PyStr) : PyStr → Option MatchGroups
  | [] => none
  | c :: tl =>
    if c = '\n' then none
    else if c = ' ' then
      match matchNoTags tl with
      | some g => some { g with tags := some acc.reverse }
      | none => matchTags (c :: acc) tl
    else matchTags (c :: acc) tl

/-- `Parser.PATTERN.match(message)`: tries the optional tag block first
(the string must begin with `@`), falling back to a match without it. -/
def PATTERN_match (s : PyStr) : Option MatchGroups :=
  match s with
  | '@' :: tl =>
    match matchTags [] tl with
    | some g => some g
    | none => matchNoTags s
  | _ => matchNoTags s

/-- Insertion into a Python `dict` modelled as an ordered association
list: an existing key keeps its position and gets the new value. -/
def dictInsert (d : List (PyStr × PyStr)) (k v : PyStr) : List (PyStr × PyStr) :=
  if d.any (fun kv => kv.1 = k) then d.map (fun kv => if kv.1 = k then (k, v) else kv)
  else d ++ [(k, v)]

/-- `Parser._extract_tags` applied to a tag string: split on `;`, split
each segment on `=`, take `parts[0]` as key and `parts[1]` as value,
with the `IndexError` fallback storing the empty string. -/
def extract_tags (t : PyStr) : List (PyStr × PyStr) :=
  (pySplitChar ';' t).foldl
    (fun d seg =>
      match pySplitChar '=' seg with
      | [] => d
      | [k] => dictInsert d k []
      | k :: v :: _ => dictInsert d k v)
    []

/-- What `inspect.getmembers(Parser)` reports for a member: plain class
attributes (`PATTERN`, `SYSTEM_ID`, `LOOKUP`), plain functions
(`__init__`), and `@classmethod`-decorated members, which `getattr` on
the class resolves to bound methods. -/
inductive MemberKind where
  | classAttr
  | plainFunction
  | classmethodBound
deriving DecidableEq, Repr

/-- `inspect.isfunction`: true only for plain functions
(`types.FunctionType`); a bound method produced by a `classmethod`
descriptor is a `types.MethodType`, for which it returns `False`. -/
def inspect_isfunction : MemberKind → Bool
  | .plainFunction => true
  | _ => false

/-- The members of the `Parser` class as enumerated (sorted by name) by
`inspect.getmembers`.  Members inherited from `object` (dunder slot
wrappers) are omitted: none of their names starts with `parse_` and none
is a plain function relevant to the dispatch loop. -/
def parserMembers : List (PyStr × MemberKind) := [
  ("LOOKUP".toList, .classAttr),
  ("PATTERN".toList, .classAttr),
  ("SYSTEM_ID".toList, .classAttr),
  ("__init__".toList, .plainFunction),
  ("_extract_tags".toList, .classmethodBound),
  ("parse".toList, .classmethodBound),
  ("parse_cap".toList, .classmethodBound),
  ("parse_clearchat".toList, .classmethodBound),
  ("parse_clearmsg".toList, .classmethodBound),
  ("parse_created".toList, .classmethodBound),
  ("parse_globaluserstate".toList, .classmethodBound),
  ("parse_hosttarget".toList, .classmethodBound),
  ("parse_join".toList, .classmethodBound),
  ("parse_mode".toList, .classmethodBound),
  ("parse_motd".toList, .classmethodBound),
  ("parse_motd_end".toList, .classmethodBound),
  ("parse_motd_start".toList, .classmethodBound),
  ("parse_my_info".toList, .classmethodBound),
  ("parse_name_end".toList, .classmethodBound),
  ("parse_name_reply".toList, .classmethodBound),
  ("parse_part".toList, .classmethodBound),
  ("parse_unknown_command".toList, .classmethodBound),
  ("parse_welcome".toList, .classmethodBound),
  ("parse_your_host".toList, .classmethodBound)]

/-- The handler name the loop compares against: `f'parse_{command}'`,
where a digit-only command has been replaced by `int(command)` (so
leading zeros are dropped in the formatted name). -/
def dispatchTarget (cmd : PyStr) : PyStr :=
  if pyIsdigit cmd then "parse_".toList ++ (Nat.repr (pyStrToNat cmd)).toList
  else "parse_".toList ++ cmd

/-- The member, if any, selected by the dispatch loop in `Parser.parse`:
the first member whose name starts with `parse_`, which passes
`inspect.isfunction`, and whose name equals the formatted target. -/
def dispatchSelect (cmd : PyStr) : Option PyStr :=
  (parserMembers.find? (fun m =>
    (pyStartsWith m.1 ("parse_".toList) && inspect_isfunction m.2)
      && m.1 == dispatchTarget cmd)).map (fun m => m.1)

/-- The observable outcome of `Parser.parse`:
* `valueErrorNoMatch`: the regex did not match and line 71 raises `ValueError`;
* `attributeErrorTagsNone`: the regex matched without a tag block, so
  `groups['tags']` is `None`; since `'tags' in c` is true for every
  `groupdict()`, `_extract_tags` runs and `None.split(';')` raises
  `AttributeError`;
* `selectedHandler`: the dispatch loop selected a member and the source
  would call it on the group dictionary;
* `valueErrorNoParser`: the loop selected nothing and line 103 raises
  `ValueError` naming the command. -/
inductive ParseOutcome where
  | valueErrorNoMatch
  | attributeErrorTagsNone
  | selectedHandler (name : PyStr)
  | valueErrorNoParser (command : PyStr)
deriving DecidableEq, Repr

/-- True when the outcome is a dispatched handler call. -/
def ParseOutcome.selects : ParseOutcome → Bool
  | .selectedHandler _ => true
  | _ => false

/-- `Parser.parse(message)`. -/
def Parser.parse (s : PyStr) : ParseOutcome :=
  match PATTERN_match s with
  | none => .valueErrorNoMatch
  | some g =>
    match g.tags with
    | none => .attributeErrorTagsNone
    | some t =>
      let _tagsDict := extract_tags t
      match dispatchSelect g.command with
      | some n => .selectedHandler n
      | none => .valueErrorNoParser g.command

/-- The `JoinMessage` dataclass, as constructed by
`JoinMessage(channel, user)`. -/
structure JoinMessage where
  channel : PyStr
  user : PyStr
deriving DecidableEq, Repr

/-- `Parser.parse_join(data)`: the acting user is the part of the
originator segment before the first `!` (`prefix.split('!', 1)` raises
`ValueError` on unpacking if there is no `!`), and the channel is
`data['params'][1:]`. -/
def Parser.parse_join (data : MatchGroups) : Except PyExc JoinMessage :=
  match pySplitOnce '!' data.pfx with
  | none => .error .valueError
  | some ua => .ok ⟨data.params.drop 1, ua.1⟩

/-- The numeric-code table `Parser.LOOKUP`, exactly as written in the
source.  No code in `parser.py` reads it. -/
def Parser.LOOKUP : List (Nat × PyStr) := [
  (1, "welcome".toList),
  (2, "your_host".toList),
  (3, "created".toList),
  (4, "my_info".toList),
  (375, "motd_start".toList),
  (372, "motd".toList),
  (376, "motd_end".toList),
  (353, "name_reply".toList),
  (366, "name_end".toList),
  (421, "unknown_command".toList)]

/-! ## The gateway (`QtTwitch/gateway.py`)

The `Gateway` object's mutable attributes are modelled as a record, and
each method as a state transformer.  Blocking waits
(`signals.wait_for_signal(sig)`) are modelled by applying, at the wait
site, the reset method that is the only emitter of the awaited signal:
the caller resumes exactly when that reset has run.  Timer arming
(`QTimer.singleShot`) schedules a future reset; the resets themselves
appear as explicit events or calls, so arming is modelled by the
`*_started` flags alone.  `datetime.datetime.now(tz=utc)` is passed in
as an integer `now` parameter. -/

/-- `Gateway._whispered_accounts`.  The attribute starts as a Python
`list`, but `reset_whisper_minutes` and `reset_whisper_daily` assign the
integer `0` to it, so its runtime type is a list or an `int`. -/
inductive PyAccounts where
  | pylist (l : List PyStr)
  | pyint (n : Int)
deriving DecidableEq, Repr

/-- `len` on the whispered-accounts attribute; `none` models the
`TypeError` raised by `len(0)`. -/
def pyAccountsLen : PyAccounts → Option Nat
  | .pylist l => some l.length
  | .pyint _ => none

/-- The mutable attributes of `Gateway`, plus the transport sink:
`outbox` records the successive `sendTextMessage` payloads, `emitted`
the payloads published through `on_message.emit`, and `socketValid`
the value of `self._socket.isValid()`. -/
structure GwState where
  channels : List PyStr
  whisper_reset : Int
  priv_sent : Nat
  priv_limit : Nat
  priv_period : Nat
  join_sent : Nat
  join_limit : Nat
  join_period : Nat
  whispers_this_second : Nat
  whispers_this_minute : Nat
  whispered_accounts : PyAccounts
  whisper_second_limit : Nat
  whisper_minute_limit : Nat
  whisper_accounts_limit : Nat
  reconnect_attempts : Nat
  should_reconnect : Bool
  priv_started : Bool
  join_started : Bool
  socketValid : Bool
  outbox : List PyStr
  emitted : List PyStr
deriving DecidableEq, Repr

namespace Gateway

/-- The state assembled by `Gateway.__init__` (no kwargs besides
`whisper_reset`; the socket is not yet open). -/
def init (whisper_reset : Int) : GwState where
  channels := []
  whisper_reset := whisper_reset
  priv_sent := 0
  priv_limit := 20
  priv_period := 30
  join_sent := 0
  join_limit := 50
  join_period := 15
  whispers_this_second := 0
  whispers_this_minute := 0
  whispered_accounts := .pylist []
  whisper_second_limit := 3
  whisper_minute_limit := 200
  whisper_accounts_limit := 40
  reconnect_attempts := 0
  should_reconnect := true
  priv_started := false
  join_started := false
  socketValid := false
  outbox := []
  emitted := []

/-- `Gateway.reset_priv_limit`: zero the counter and emit
`on_priv_limit_reset` (re-arming the timer has no state effect here). -/
def reset_priv_limit (st : GwState) : GwState := { st with priv_sent := 0 }

/-- `Gateway.reset_join_limit`. -/
def reset_join_limit (st : GwState) : GwState := { st with join_sent := 0 }

/-- `Gateway.wait_and_increment_priv`: at capacity the caller blocks on
`on_priv_limit_reset`, whose only emitter is `reset_priv_limit`, which
has set the counter to `0` when the wait returns; then `+= 1`. -/
def wait_and_increment_priv (st : GwState) : GwState :=
  if st.priv_sent ≥ st.priv_limit then { st with priv_sent := 0 + 1 }
  else { st with priv_sent := st.priv_sent + 1 }

/-- `Gateway.wait_and_increment_join`, same shape for the JOIN/AUTH
bucket. -/
def wait_and_increment_join (st : GwState) : GwState :=
  if st.join_sent ≥ st.join_limit then { st with join_sent := 0 + 1 }
  else { st with join_sent := st.join_sent + 1 }

/-- The condition `content.lower().startswith("CAP REQ")` in
`send_raw_message`. -/
def capReqCheck (content : PyStr) : Bool :=
  pyStartsWith (pyLower content) ("CAP REQ".toList)

/-- `Gateway.send_raw_message(content, ignore_limit=...)`: unless the
limit is ignored, consume from the PRIVMSG bucket when the lowercased
content starts with `"CAP REQ"` and from the JOIN/AUTH bucket otherwise;
append the terminator if missing; hand the line to the socket. -/
def send_raw_message (content : PyStr) (ignore_limit : Option Bool) (st : GwState) :
    GwState :=
  let il := ignore_limit.getD false
  let st :=
    if il then st
    else if capReqCheck content then wait_and_increment_priv st
    else wait_and_increment_join st
  let wire := if pyEndsWith content ("\r\n".toList) then content else content ++ "\r\n".toList
  { st with outbox := st.outbox ++ [wire] }

/-- `Gateway.join(channel)`: send `JOIN #channel`, then append the
channel to `self.channels` if it is not already present. -/
def join (channel : PyStr) (st : GwState) : GwState :=
  let st := send_raw_message ("JOIN #".toList ++ channel) none st
  if channel ∈ st.channels then st else { st with channels := st.channels ++ [channel] }

/-- `Gateway.part(channel)`: send `PART #channel`, then remove the
channel from `self.channels` if present (`list.remove` drops the first
occurrence). -/
def part (channel : PyStr) (st : GwState) : GwState :=
  let st := send_raw_message ("PART #".toList ++ channel) none st
  if channel ∈ st.channels then { st with channels := st.channels.erase channel } else st

/-- `Gateway.send_priv_message(channel, content)`: arm the PRIVMSG reset
timer on first use, consume from the PRIVMSG bucket, and send with the
limit check bypassed. -/
def send_priv_message (channel content : PyStr) (st : GwState) : GwState :=
  let st := if !st.priv_started then { st with priv_started := true } else st
  let st := wait_and_increment_priv st
  send_raw_message ("PRIVMSG #".toList ++ channel ++ " :".toList ++ content) (some true) st

/-- `Gateway.reset_whisper_seconds`. -/
def reset_whisper_seconds (st : GwState) : GwState := { st with whispers_this_second := 0 }

/-- `Gateway.reset_whisper_minutes(now)`: zero the per-minute counter,
then compute `dif = self.whisper_reset - now`; when `dif.days > 0` the
source assigns the integer `0` to `self._whispered_accounts`. -/
def reset_whisper_minutes (now : Int) (st : GwState) : GwState :=
  let st := { st with whispers_this_minute := 0 }
  if Int.fdiv (st.whisper_reset - now) 86400 > 0 then
    { st with whispered_accounts := .pyint 0 }
  else st

/-- `Gateway.reset_whisper_daily(now)`: return untouched when
`(self.whisper_reset - now).days <= 0`; otherwise assign the integer `0`
to the accounts attribute and move the deadline to `now` plus one day. -/
def reset_whisper_daily (now : Int) (st : GwState) : GwState :=
  if Int.fdiv (st.whisper_reset - now) 86400 ≤ 0 then st
  else
    { st with whispered_accounts := .pyint 0, whisper_reset := now + 86400 }

/-- `Gateway.can_whisper(user)`: the account-cap check runs first
(`user not in A and len(A) >= limit`, with Python's left-to-right
evaluation and short-circuit), then the per-minute and per-second
checks.  A membership or `len` test on the integer `0` raises
`TypeError`. -/
def can_whisper (user : PyStr) (st : GwState) : Except PyExc Bool :=
  match st.whispered_accounts with
  | .pyint _ => .error .typeError
  | .pylist l =>
    if user ∉ l ∧ l.length ≥ st.whisper_accounts_limit then .ok false
    else if st.whispers_this_minute ≥ st.whisper_minute_limit then .ok false
    else if st.whispers_this_second ≥ st.whisper_second_limit then .ok false
    else .ok true

/-- `Gateway.wait_for_whisper(include_accounts=...)`: block on the first
exceeded quota's reset signal; each wait is modelled by the awaited
signal's emitter.  The account branch runs only when `include_accounts`
is truthy (the default `None` is falsy). -/
def wait_for_whisper (include_accounts : Option Bool) (now : Int) (st : GwState) :
    Except PyExc GwState :=
  if st.whispers_this_minute ≥ st.whisper_minute_limit then
    .ok (reset_whisper_minutes now st)
  else if st.whispers_this_second ≥ st.whisper_second_limit then
    .ok (reset_whisper_seconds st)
  else if include_accounts.getD false then
    match pyAccountsLen st.whispered_accounts with
    | none => .error .typeError
    | some n =>
      if n ≥ st.whisper_accounts_limit then .ok (reset_whisper_daily now st) else .ok st
  else .ok st

/-- `Gateway.increment_whisper(user)`: record an unseen recipient, then
bump both whisper counters; the membership test raises `TypeError` when
the attribute holds the integer `0`. -/
def increment_whisper (user : PyStr) (st : GwState) : Except PyExc GwState :=
  match st.whispered_accounts with
  | .pyint _ => .error .typeError
  | .pylist l =>
    let st := if user ∈ l then st else { st with whispered_accounts := .pylist (l ++ [user]) }
    .ok { st with
      whispers_this_second := st.whispers_this_second + 1,
      whispers_this_minute := st.whispers_this_minute + 1 }

/-- `Gateway.send_whisper_message(user, content)`: wait (without
`include_accounts`) when `can_whisper` denies, send the `.w` line with
the rate limit NOT ignored, then record the recipient. -/
def send_whisper_message (user content : PyStr) (now : Int) (st : GwState) :
    Except PyExc GwState := do
  let cw ← can_whisper user st
  let st ← if !cw then wait_for_whisper none now st else .ok st
  let st := send_raw_message
    ("PRIVMSG #jtv :.w ".toList ++ user ++ " ".toList ++ content) none st
  increment_whisper user st

/-- `Gateway.connect_`: open the socket; whether it becomes valid is
decided by the environment (`openOk`). -/
def connect_ (openOk : Bool) (st : GwState) : GwState := { st with socketValid := openOk }

/-- `Gateway.disconnect_`: raise `ConnectionError` on an invalid socket,
otherwise close it. -/
def disconnect_ (st : GwState) : Except PyExc GwState :=
  if !st.socketValid then .error .connectionError
  else .ok { st with socketValid := false }

/-- `Gateway.reconnect`: enable reconnection, try to close; if the close
raised because the socket was already closed, disable reconnection and
open again. -/
def reconnect (openOk : Bool) (st : GwState) : GwState :=
  let st := { st with should_reconnect := true }
  match disconnect_ st with
  | .ok st2 => st2
  | .error _ => connect_ openOk { st with should_reconnect := false }

/-- `Gateway.process_message(message)`: answer the literal keep-alive
probe with `PONG` outside the rate limiter, follow the server's
`RECONNECT` directive, and publish everything else on `on_message`. -/
def process_message (openOk : Bool) (message : PyStr) (st : GwState) : GwState :=
  if message = ("PING :tmi.twitch.tv\r\n".toList) then
    send_raw_message ("PONG :tmi.twitch.tv".toList) (some true) st
  else if message = (":tmi.twitch.tv RECONNECT\r\n".toList) then
    reconnect openOk st
  else
    { st with emitted := st.emitted ++ [message] }

/-- The retry loop of `Gateway.process_disconnection`: while the socket
is invalid, give up (zeroing the attempt counter) once the counter
exceeds `5`, otherwise open the socket, wait for the connected signal or
the timer, and increment the counter.  `script n` tells whether the
`n`-th open leaves the socket valid; the returned triple is the final
socket validity, the final attempt counter, and the number of opens
performed. -/
def reconnectLoop (script : Nat → Bool) (valid : Bool) (attempts opens : Nat) :
    Bool × Nat × Nat :=
  if valid then (valid, attempts, opens)
  else if h : attempts > 5 then (valid, 0, opens)
  else reconnectLoop script (script opens) (attempts + 1) (opens + 1)
termination_by 6 - attempts
decreasing_by simp_wf; omega

/-- `Gateway.process_disconnection`: nothing happens unless reconnection
is enabled; after the retry loop, a valid socket disables any further
automatic reconnection. -/
def process_disconnection (script : Nat → Bool) (st : GwState) : GwState :=
  if !st.should_reconnect then st
  else
    let r := reconnectLoop script st.socketValid st.reconnect_attempts 0
    let st := { st with socketValid := r.1, reconnect_attempts := r.2.1 }
    if st.socketValid then { st with should_reconnect := false } else st

end Gateway

/-! ## Trace model and concrete states used by the theorems -/

/-- An atomic event on the PRIVMSG / JOIN buckets: a completed
`wait_and_increment_*` call or a timer-driven `reset_*_limit` call. -/
inductive BucketEvent where
  | sendPriv
  | sendJoin
  | resetPriv
  | resetJoin
deriving DecidableEq, Repr

/-- One bucket event applied to the gateway state. -/
def bucketStep (st : GwState) : BucketEvent → GwState
  | .sendPriv => Gateway.wait_and_increment_priv st
  | .sendJoin => Gateway.wait_and_increment_join st
  | .resetPriv => Gateway.reset_priv_limit st
  | .resetJoin => Gateway.reset_join_limit st

/-- A sequence of bucket events applied in order. -/
def bucketRun (tr : List BucketEvent) (st : GwState) : GwState := tr.foldl bucketStep st

/-- `n` pairwise distinct recipient logins `u0`, `u1`, ... -/
def mkAccounts (n : Nat) : List PyStr := (List.range n).map (fun i => 'u' :: (Nat.repr i).toList)

/-- A gateway that has whispered 40 distinct accounts (the configured
account limit) with both timed whisper counters idle. -/
def st40 : GwState := { Gateway.init 0 with whispered_accounts := .pylist (mkAccounts 40) }

/-- A gateway whose daily whisper deadline is at epoch second 0 and whose
account set holds one recipient. -/
def stA : GwState := { Gateway.init 0 with whispered_accounts := .pylist [("bob".toList)] }

/-- A gateway whose daily whisper deadline lies two days after epoch
second 0 and whose account set holds one recipient. -/
def stB : GwState := { Gateway.init (2 * 86400) with whispered_accounts := .pylist [("bob".toList)] }

/-- A freshly constructed gateway that lost its connection after three
failed reconnection attempts. -/
def stDisc : GwState := { Gateway.init 0 with reconnect_attempts := 3 }

/-- A freshly constructed gateway that lost its connection after two
failed reconnection attempts. -/
def stW : GwState := { Gateway.init 0 with reconnect_attempts := 2 }

/-! ## Helper lemmas -/

/-- The dispatch loop never selects a member: every `parse_*` member is a
classmethod, hence a bound method under `getattr`, and
`inspect.isfunction` rejects it before the name comparison. -/
theorem dispatchSelect_eq_none (cmd : PyStr) : dispatchSelect cmd = none := rfl

theorem char_toNat_ofNat_valid (n : Nat) (h : n.isValidChar) : (Char.ofNat n).toNat = n := by
  unfold Char.ofNat Char.toNat
  simp only [h, dite_true, Char.ofNatAux]
  rfl

/-- ASCII lowercasing never produces the uppercase letter `C`. -/
theorem pyLowerChar_ne_C (c : Char) : pyLowerChar c ≠ 'C' := by
  unfold pyLowerChar
  split
  case isTrue h =>
    intro hEq
    have hv : (Char.ofNat (c.toNat + 32)).toNat = c.toNat + 32 :=
      char_toNat_ofNat_valid _ (Or.inl (by omega))
    rw [hEq] at hv
    have hc : ('C').toNat = 67 := by decide
    omega
  case isFalse h =>
    intro hEq
    subst hEq
    exact h (by decide)

/-- The branch guard of `send_raw_message` is unsatisfiable: a lowercased
string cannot start with the uppercase literal `"CAP REQ"`. -/
theorem capReqCheck_false (content : PyStr) : Gateway.capReqCheck content = false := by
  cases content with
  | nil => rfl
  | cons c tl =>
    have h := pyLowerChar_ne_C c
    simp only [Gateway.capReqCheck, pyStartsWith, pyLower, List.map_cons]
    show List.isPrefixOf ('C' :: ("AP REQ".toList)) (pyLowerChar c :: tl.map pyLowerChar) = false
    simp only [List.isPrefixOf, Bool.and_eq_false_iff]
    left
    simp [Ne.symm h]

theorem wait_join_channels (st : GwState) :
    (Gateway.wait_and_increment_join st).channels = st.channels := by
  unfold Gateway.wait_and_increment_join; split <;> rfl

theorem wait_join_outbox (st : GwState) :
    (Gateway.wait_and_increment_join st).outbox = st.outbox := by
  unfold Gateway.wait_and_increment_join; split <;> rfl

/-- With the limit not ignored, `send_raw_message` consumes the
JOIN/AUTH bucket (the `"CAP REQ"` branch being unreachable) and appends
the terminated line to the transport. -/
theorem send_raw_none_eq (content : PyStr) (st : GwState) :
    Gateway.send_raw_message content none st
      = { Gateway.wait_and_increment_join st with
          outbox := st.outbox ++
            [(if pyEndsWith content ("\r\n".toList) then content
              else content ++ "\r\n".toList)] } := by
  simp [Gateway.send_raw_message, capReqCheck_false, Gateway.wait_and_increment_join]
  split <;> rfl

/-- One bucket event preserves both limits and both counter bounds. -/
theorem bucketStep_inv (st : GwState) (e : BucketEvent)
    (h1 : st.priv_sent ≤ st.priv_limit) (h2 : st.join_sent ≤ st.join_limit)
    (hp : 1 ≤ st.priv_limit) (hj : 1 ≤ st.join_limit) :
    (bucketStep st e).priv_limit = st.priv_limit
      ∧ (bucketStep st e).join_limit = st.join_limit
      ∧ (bucketStep st e).priv_sent ≤ st.priv_limit
      ∧ (bucketStep st e).join_sent ≤ st.join_limit := by
  cases e <;>
    simp only [bucketStep, Gateway.wait_and_increment_priv, Gateway.wait_and_increment_join,
      Gateway.reset_priv_limit, Gateway.reset_join_limit] <;>
    first
      | (split <;> simp_all <;> omega)
      | simp_all

/-- All bucket traces keep both counters within their limits. -/
theorem bucketRun_inv (tr : List BucketEvent) (st : GwState)
    (h1 : st.priv_sent ≤ st.priv_limit) (h2 : st.join_sent ≤ st.join_limit)
    (hp : 1 ≤ st.priv_limit) (hj : 1 ≤ st.join_limit) :
    (bucketRun tr st).priv_limit = st.priv_limit
      ∧ (bucketRun tr st).join_limit = st.join_limit
      ∧ (bucketRun tr st).priv_sent ≤ st.priv_limit
      ∧ (bucketRun tr st).join_sent ≤ st.join_limit := by
  induction tr generalizing st with
  | nil => exact ⟨rfl, rfl, h1, h2⟩
  | cons e tr ih =>
    obtain ⟨e1, e2, e3, e4⟩ := bucketStep_inv st e h1 h2 hp hj
    have := ih (bucketStep st e) (e1 ▸ e3) (e2 ▸ e4) (e1 ▸ hp) (e2 ▸ hj)
    simpa [bucketRun, e1, e2] using this

/-! ## Claims -/

/-- Claim C1 (code bug): the claim says `Parser.parse` returns the
correct typed variant — in particular a JOIN line with originator
`nick!user@host` and parameter `#foo` yields a join event for user
`nick`, channel `foo` — and that numeric codes are mapped through
`Parser.LOOKUP` before dispatch.  The code cannot do either: without a
tag block the always-true `'tags' in c` guard feeds `None` to
`_extract_tags` and `AttributeError` is raised; with a tag block the
dispatch loop rejects every `parse_*` member because
`inspect.isfunction` is false on classmethod bound methods, so
`ValueError` is raised and `LOOKUP` is never read.  The handler
`parse_join` itself, called directly, does extract user `nick` and
channel `foo`; `Parser.parse` never reaches it, and never reaches any
handler on any input. -/
theorem claim_c1 :
    Parser.parse (":nick!user@host JOIN #foo".toList) = .attributeErrorTagsNone
      ∧ Parser.parse ("@badge-info= :nick!user@host JOIN #foo".toList)
          = .valueErrorNoParser ("JOIN".toList)
      ∧ Parser.parse_join
          ⟨some ("badge-info=".toList), "nick!user@host".toList, "JOIN".toList, "#foo".toList⟩
          = .ok ⟨"foo".toList, "nick".toList⟩
      ∧ Parser.parse (":tmi.twitch.tv 001 user :Welcome, GLHF!".toList)
          = .attributeErrorTagsNone
      ∧ Parser.parse ("@x=y :tmi.twitch.tv 001 user :Welcome, GLHF!".toList)
          = .valueErrorNoParser ("001".toList)
      ∧ (∀ s : PyStr, (Parser.parse s).selects = false) := by
  refine ⟨by decide, by decide, by decide, by decide, by decide, ?_⟩
  intro s
  rcases h : PATTERN_match s with _ | ⟨tags, pfx, cmd, ps⟩
  · simp [Parser.parse, h, ParseOutcome.selects]
  · cases tags <;> simp [Parser.parse, h, ParseOutcome.selects, dispatchSelect_eq_none]

/-- Claim C2 (confirmed): over every sequence of completed
`wait_and_increment_priv` / `wait_and_increment_join` calls and
`reset_priv_limit` / `reset_join_limit` calls from a fresh gateway, the
PRIVMSG counter never exceeds 20 and the JOIN/AUTH counter never
exceeds 50; a caller at capacity proceeds only after the bucket's reset
has zeroed the count, and then increments. -/
theorem claim_c2 (w : Int) (tr : List BucketEvent) :
    (bucketRun tr (Gateway.init w)).priv_sent ≤ 20
      ∧ (bucketRun tr (Gateway.init w)).join_sent ≤ 50 := by
  obtain ⟨-, -, h3, h4⟩ := bucketRun_inv tr (Gateway.init w)
    (by norm_num [Gateway.init]) (by norm_num [Gateway.init])
    (by norm_num [Gateway.init]) (by norm_num [Gateway.init])
  exact ⟨by simpa [Gateway.init] using h3, by simpa [Gateway.init] using h4⟩

/-- Claim C3 (code bug): with 40 distinct accounts already whispered and
both timed counters idle, `can_whisper` denies a whisper to a new
recipient, but `send_whisper_message` calls `wait_for_whisper` without
`include_accounts`, so the wait returns immediately and
`increment_whisper` records the 41st recipient at once — the recipient
set exceeds the configured account limit of 40, which the claim rules
out. -/
theorem claim_c3 :
    Gateway.can_whisper ("alice".toList) st40 = .ok false
      ∧ (Gateway.send_whisper_message ("alice".toList) ("hi".toList) 0 st40).map
          (fun s => pyAccountsLen s.whispered_accounts) = .ok (some 41)
      ∧ st40.whisper_accounts_limit = 40 := by
  refine ⟨by decide, by decide, by decide⟩

/-- Claim C4 (code bug): `reset_whisper_daily` compares
`(self.whisper_reset - now).days <= 0`, which is true exactly when the
deadline has passed (or is less than a day away), so a gateway whose
deadline lapsed three days ago is returned untouched — the set is never
cleared after the deadline passes; with the deadline two days in the
future the set IS cleared (early), to the integer `0` rather than an
empty collection, breaking later membership checks; and
`reset_whisper_minutes` clears the set through the same reversed test,
so the daily reset is not the only operation clearing it. -/
theorem claim_c4 :
    Gateway.reset_whisper_daily (3 * 86400) stA = stA
      ∧ Gateway.reset_whisper_daily 0 stB
          = { stB with whispered_accounts := .pyint 0, whisper_reset := 86400 }
      ∧ (Gateway.reset_whisper_minutes 0 stB).whispered_accounts = .pyint 0
      ∧ Gateway.increment_whisper ("bob".toList)
          { stB with whispered_accounts := .pyint 0 } = .error .typeError := by
  refine ⟨by decide, by decide, by decide, by decide⟩

/-- Claim C5 counterexample: a grammar-conforming line whose command
token `FOOBAR` matches no handler makes `Parser.parse` raise
`ValueError` (line 103) instead of returning a catch-all "unrecognized
command" variant — no such variant exists in the code. -/
theorem claim_c5_counterexample :
    Parser.parse ("@k=v :pfx FOOBAR baz".toList) = .valueErrorNoParser ("FOOBAR".toList) := by
  decide

/-- Claim C5 as amended: for every line matching the grammar with a tag
block present (without one, `AttributeError` pre-empts dispatch), the
command — whether it matches a handler's intent or not — reaches no
handler and `Parser.parse` raises `ValueError` carrying the raw command
token. -/
theorem claim_c5_amended (s : PyStr) (g : MatchGroups) (t : PyStr)
    (h : PATTERN_match s = some g) (ht : g.tags = some t) :
    Parser.parse s = .valueErrorNoParser g.command := by
  simp [Parser.parse, h, ht, dispatchSelect_eq_none]

/-- Witness for the amended claim C5 at a concrete line. -/
theorem claim_c5_witness :
    Parser.parse ("@color=red :srv WEIRDCMD a b".toList)
      = .valueErrorNoParser ("WEIRDCMD".toList) :=
  claim_c5_amended _
    ⟨some ("color=red".toList), "srv".toList, "WEIRDCMD".toList, "a b".toList⟩
    ("color=red".toList) (by decide) rfl

/-- Claim C6 counterexample: joining `foo` twice from a fresh gateway
sends the `JOIN #foo` line both times (two transport writes) and raises
no "already joined" condition; the membership list merely skips the
duplicate append. -/
theorem claim_c6_counterexample :
    (Gateway.join ("foo".toList) (Gateway.join ("foo".toList) (Gateway.init 0))).outbox
        = [("JOIN #foo\r\n".toList), ("JOIN #foo\r\n".toList)]
      ∧ (Gateway.join ("foo".toList) (Gateway.join ("foo".toList) (Gateway.init 0))).channels
        = [("foo".toList)] := by
  refine ⟨by decide, by decide⟩

/-- Claim C6 as amended: `join` always sends exactly one `JOIN` line
(consuming the JOIN/AUTH bucket) and appends the channel to the
membership list only when absent; `part` always sends exactly one
`PART` line and removes the channel when present; neither checks
membership before contacting the transport and neither can fail. -/
theorem claim_c6_amended (ch : PyStr) (st : GwState) :
    (Gateway.join ch st).outbox.length = st.outbox.length + 1
      ∧ (Gateway.join ch st).channels
          = (if ch ∈ st.channels then st.channels else st.channels ++ [ch])
      ∧ (Gateway.part ch st).outbox.length = st.outbox.length + 1
      ∧ (Gateway.part ch st).channels = st.channels.erase ch := by
  refine ⟨?_, ?_, ?_, ?_⟩
  · simp only [Gateway.join, send_raw_none_eq, wait_join_channels]
    split <;> simp
  · simp only [Gateway.join, send_raw_none_eq, wait_join_channels]
    split <;> simp
  · simp only [Gateway.part, send_raw_none_eq, wait_join_channels]
    split <;> simp
  · simp only [Gateway.part, send_raw_none_eq, wait_join_channels]
    split
    · rfl
    · next hmem => exact (List.erase_of_not_mem hmem).symm

/-- Claim C7 counterexample: with reconnection enabled, an invalid
socket and three prior failed attempts, a successful re-open leaves the
consecutive-failure counter at 4, not 0 — the counter is never reset by
success (only the give-up branch zeroes it). -/
theorem claim_c7_counterexample :
    (Gateway.process_disconnection (fun _ => true) stDisc).reconnect_attempts = 4
      ∧ (Gateway.process_disconnection (fun _ => true) stDisc).socketValid = true := by
  constructor <;> simp [Gateway.process_disconnection, stDisc, Gateway.init, Gateway.reconnectLoop]

/-- Claim C7 as amended: with reconnection enabled, an invalid socket
and at most five recorded attempts, a successful re-open exits the loop
with the counter incremented (never zeroed) and disables any future
automatic reconnection; when every open fails, the loop performs six
opens and then gives up, zeroing the counter, surfacing no error and
leaving reconnection enabled. -/
theorem claim_c7_amended (st : GwState) (h1 : st.should_reconnect = true)
    (h2 : st.socketValid = false) (h3 : st.reconnect_attempts ≤ 5) :
    Gateway.process_disconnection (fun _ => true) st
        = { st with socketValid := true, reconnect_attempts := st.reconnect_attempts + 1,
                    should_reconnect := false }
      ∧ Gateway.reconnectLoop (fun _ => false) false 0 0 = (false, 0, 6) := by
  constructor
  · have hloop : Gateway.reconnectLoop (fun _ => true) false st.reconnect_attempts 0
        = (true, st.reconnect_attempts + 1, 1) := by
      rw [Gateway.reconnectLoop]
      have h5 : ¬(st.reconnect_attempts > 5) := by omega
      simp only [if_neg h5, if_false, Bool.false_eq_true, ite_false, dif_neg h5]
      rw [Gateway.reconnectLoop]
      simp
    simp [Gateway.process_disconnection, h1, h2, hloop]
  · simp [Gateway.reconnectLoop]

/-- Witness for the amended claim C7 at a concrete state. -/
theorem claim_c7_witness :
    Gateway.process_disconnection (fun _ => true) stW
        = { stW with socketValid := true, reconnect_attempts := stW.reconnect_attempts + 1,
                     should_reconnect := false }
      ∧ Gateway.reconnectLoop (fun _ => false) false 0 0 = (false, 0, 6) :=
  claim_c7_amended stW rfl rfl (by decide)

/-- Claim C8 (confirmed): processing the literal keep-alive probe
`PING :tmi.twitch.tv\r\n` sends `PONG :tmi.twitch.tv` (with the
terminator appended) with the rate limit bypassed: the resulting state
differs from the input state only by the appended transport write, so
every rate-limit counter, both whisper counters and the whispered
account set are unchanged. -/
theorem claim_c8 (openOk : Bool) (st : GwState) :
    Gateway.process_message openOk ("PING :tmi.twitch.tv\r\n".toList) st
      = { st with outbox := st.outbox ++ [("PONG :tmi.twitch.tv\r\n".toList)] } := by
  simp [Gateway.process_message, Gateway.send_raw_message]
  decide

/-- Claim C10 (confirmed): `content.lower().startswith("CAP REQ")` is
false for every string, so with the limit not ignored,
`send_raw_message` always consumes the JOIN/AUTH bucket and never the
PRIVMSG bucket, whatever the line's content; in particular a whisper
sent through `send_whisper_message` from a fresh gateway leaves the
PRIVMSG counter at 0 and the JOIN/AUTH counter at 1. -/
theorem claim_c10 :
    (∀ content : PyStr, Gateway.capReqCheck content = false)
      ∧ (∀ (content : PyStr) (st : GwState),
          Gateway.send_raw_message content none st
            = { Gateway.wait_and_increment_join st with
                outbox := st.outbox ++
                  [(if pyEndsWith content ("\r\n".toList) then content
                    else content ++ "\r\n".toList)] })
      ∧ (Gateway.send_whisper_message ("alice".toList) ("hi".toList) 0 (Gateway.init 0)).map
          (fun s => (s.priv_sent, s.join_sent)) = .ok (0, 1) := by
  refine ⟨capReqCheck_false, send_raw_none_eq, by decide⟩

/-- Claim C9 (code bug): the grammar matches a line omitting the
optional tag block (the groups carry `tags = None`), but `Parser.parse`
then raises `AttributeError` because `'tags' in c` is true for every
`groupdict()` and `_extract_tags` calls `.split` on `None` — instead of
parsing with an empty tag mapping as the claim states; a line omitting
the `:`-introduced originator segment does not match the pattern at
all, since its `:` is not optional, and parse raises `ValueError`. -/
theorem claim_c9 :
    PATTERN_match (":svc CLEARCHAT #room".toList)
        = some ⟨none, "svc".toList, "CLEARCHAT".toList, "#room".toList⟩
      ∧ Parser.parse (":svc CLEARCHAT #room".toList) = .attributeErrorTagsNone
      ∧ PATTERN_match ("CLEARCHAT #room".toList) = none
      ∧ Parser.parse ("CLEARCHAT #room".toList) = .valueErrorNoMatch := by
  refine ⟨by decide, by decide, by decide, by decide⟩

end QtTwitch
